import Mathlib

/-!
Verification of the game core of the 16x16 NeoPixel matrix repository
(`pong.py` and `space_invaders.py`).

Modelling conventions:
* Python integers are `ℤ` (or `ℕ` for naturally non-negative counters).
* Python floats are modelled as exact rationals `ℚ`; the arithmetic the
  games perform (sums, products with small decimal constants, comparisons,
  `abs`, `min`/`max`) is modelled exactly.
* Python's `int(...)` truncation toward zero is `pyInt`.
* The NeoPixel buffer `np` is a total function from LED index to color;
  all operations are total, so "raises no error" is inherent.
* `random.*` calls are replaced by explicit oracle parameters.
* `time.ticks_ms` is an explicit `now : ℤ` parameter; `time.ticks_diff`
  is modelled as subtraction.
-/

/-- Python `int(q)`: truncation toward zero. -/
def pyInt (q : ℚ) : ℤ := if q < 0 then ⌈q⌉ else ⌊q⌋

/-- `WIDTH = 16` from the configuration section. -/
def WIDTH : ℤ := 16

/-- `HEIGHT = 16` from the configuration section. -/
def HEIGHT : ℤ := 16

/-- An RGB triple. -/
abbrev Color := ℤ × ℤ × ℤ

/-- The NeoPixel buffer, one color per LED index. -/
def Buffer := ℤ → Color

/-- Writing one slot of the buffer (`np[idx] = c`). -/
def npSet (buf : Buffer) (i : ℤ) (c : Color) : Buffer :=
  fun j => if j = i then c else buf j

/-- `xy_to_index` from `pong.py` / `space_invaders.py`: serpentine layout,
`-1` for out-of-range coordinates. -/
def xy_to_index (x y : ℤ) : ℤ :=
  if x < 0 ∨ x ≥ WIDTH ∨ y < 0 ∨ y ≥ HEIGHT then -1
  else if y % 2 = 0 then y * WIDTH + x
  else y * WIDTH + (WIDTH - 1 - x)

/-- `BRIGHTNESS = 0.3`; one channel of `scale_color`: `int(c * BRIGHTNESS)`. -/
def scale_channel (c : ℤ) : ℤ := pyInt ((c : ℚ) * (3 / 10))

/-- `scale_color` from the source: scale every channel. -/
def scale_color (c : Color) : Color :=
  (scale_channel c.1, scale_channel c.2.1, scale_channel c.2.2)

/-- `set_pixel` from `pong.py`: truncate the (possibly float) coordinates
with `int(...)`, map through `xy_to_index`, and write only when the index
is non-negative. -/
def set_pixel (x y : ℚ) (color : Color) (buf : Buffer) : Buffer :=
  if xy_to_index (pyInt x) (pyInt y) ≥ 0 then
    npSet buf (xy_to_index (pyInt x) (pyInt y)) (scale_color color)
  else buf

/-- The all-black buffer (state after `clear()`). -/
def blackBuffer : Buffer := fun _ => (0, 0, 0)

/-- On in-range coordinates `xy_to_index` is the guard-free serpentine formula. -/
theorem xy_to_index_of_bounds {x y : ℤ} (hx0 : 0 ≤ x) (hx : x < 16)
    (hy0 : 0 ≤ y) (hy : y < 16) :
    xy_to_index x y = if y % 2 = 0 then y * 16 + x else y * 16 + (16 - 1 - x) := by
  unfold xy_to_index WIDTH HEIGHT
  rw [if_neg (by omega)]

/-- C5: the serpentine mapping, restricted to `[0,16) × [0,16)`, is a
bijection onto `[0,256)`; on even rows the index is strictly increasing in
`x`, on odd rows strictly decreasing in `x`. -/
theorem c5_serpentine_bijection :
    (∀ x₁ y₁ x₂ y₂ : ℤ, 0 ≤ x₁ → x₁ < 16 → 0 ≤ y₁ → y₁ < 16 →
       0 ≤ x₂ → x₂ < 16 → 0 ≤ y₂ → y₂ < 16 →
       xy_to_index x₁ y₁ = xy_to_index x₂ y₂ → x₁ = x₂ ∧ y₁ = y₂) ∧
    (∀ x y : ℤ, 0 ≤ x → x < 16 → 0 ≤ y → y < 16 →
       0 ≤ xy_to_index x y ∧ xy_to_index x y < 256) ∧
    (∀ i : ℤ, 0 ≤ i → i < 256 →
       ∃ x y : ℤ, 0 ≤ x ∧ x < 16 ∧ 0 ≤ y ∧ y < 16 ∧ xy_to_index x y = i) ∧
    (∀ x₁ x₂ y : ℤ, 0 ≤ x₁ → x₂ < 16 → x₁ < x₂ → 0 ≤ y → y < 16 →
       y % 2 = 0 → xy_to_index x₁ y < xy_to_index x₂ y) ∧
    (∀ x₁ x₂ y : ℤ, 0 ≤ x₁ → x₂ < 16 → x₁ < x₂ → 0 ≤ y → y < 16 →
       y % 2 = 1 → xy_to_index x₂ y < xy_to_index x₁ y) := by
  refine ⟨?_, ?_, ?_, ?_, ?_⟩
  · intro x₁ y₁ x₂ y₂ h1 h2 h3 h4 h5 h6 h7 h8 heq
    rw [xy_to_index_of_bounds h1 h2 h3 h4, xy_to_index_of_bounds h5 h6 h7 h8] at heq
    constructor <;> [skip; skip] <;>
      rcases Int.even_or_odd y₁ with hy1 | hy1 <;>
      rcases Int.even_or_odd y₂ with hy2 | hy2 <;>
      obtain ⟨k₁, hk₁⟩ := hy1 <;> obtain ⟨k₂, hk₂⟩ := hy2 <;>
      [rw [if_pos (by omega), if_pos (by omega)] at heq;
       rw [if_pos (by omega), if_neg (by omega)] at heq;
       rw [if_neg (by omega), if_pos (by omega)] at heq;
       rw [if_neg (by omega), if_neg (by omega)] at heq;
       rw [if_pos (by omega), if_pos (by omega)] at heq;
       rw [if_pos (by omega), if_neg (by omega)] at heq;
       rw [if_neg (by omega), if_pos (by omega)] at heq;
       rw [if_neg (by omega), if_neg (by omega)] at heq] <;>
      omega
  · intro x y h1 h2 h3 h4
    rw [xy_to_index_of_bounds h1 h2 h3 h4]
    split <;> omega
  · intro i h1 h2
    by_cases hp : (i / 16) % 2 = 0
    · refine ⟨i % 16, i / 16, by omega, by omega, by omega, by omega, ?_⟩
      rw [xy_to_index_of_bounds (by omega) (by omega) (by omega) (by omega), if_pos hp]
      omega
    · refine ⟨16 - 1 - i % 16, i / 16, by omega, by omega, by omega, by omega, ?_⟩
      rw [xy_to_index_of_bounds (by omega) (by omega) (by omega) (by omega), if_neg hp]
      omega
  · intro x₁ x₂ y h1 h2 h3 h4 h5 h6
    rw [xy_to_index_of_bounds (by omega) (by omega) h4 h5,
        xy_to_index_of_bounds (by omega) (by omega) h4 h5, if_pos h6, if_pos h6]
    omega
  · intro x₁ x₂ y h1 h2 h3 h4 h5 h6
    rw [xy_to_index_of_bounds (by omega) (by omega) h4 h5,
        xy_to_index_of_bounds (by omega) (by omega) h4 h5,
        if_neg (by omega), if_neg (by omega)]
    omega

/-- C5 witness: concrete instances of the bijection and monotonicity facts. -/
theorem c5_serpentine_bijection_witness :
    (∃ x y : ℤ, 0 ≤ x ∧ x < 16 ∧ 0 ≤ y ∧ y < 16 ∧ xy_to_index x y = 200) ∧
    xy_to_index 3 2 < xy_to_index 4 2 ∧
    xy_to_index 4 3 < xy_to_index 3 3 :=
  ⟨c5_serpentine_bijection.2.2.1 200 (by norm_num) (by norm_num),
   c5_serpentine_bijection.2.2.2.1 3 4 2 (by norm_num) (by norm_num) (by norm_num)
     (by norm_num) (by norm_num) (by norm_num),
   c5_serpentine_bijection.2.2.2.2 3 4 3 (by norm_num) (by norm_num) (by norm_num)
     (by norm_num) (by norm_num) (by norm_num)⟩

/-- C4 counterexample: `(-1/2, 5)` lies outside `[0,16) × [0,16)`, yet
`set_pixel` truncates `-1/2` to `0` *before* the bounds check, so the write
lands at serpentine index `95` and the buffer slot changes. -/
theorem c4_counterexample :
    ((-1/2 : ℚ) < 0) ∧
    set_pixel (-1/2) 5 (255, 255, 255) blackBuffer 95 = (76, 76, 76) ∧
    blackBuffer 95 = (0, 0, 0) := by
  refine ⟨by norm_num, ?_, rfl⟩
  have hx : pyInt (-1/2) = 0 := by norm_num [pyInt]
  have hy : pyInt 5 = 5 := by norm_num [pyInt]
  rw [set_pixel, hx, hy, xy_to_index_of_bounds (by norm_num) (by norm_num)
    (by norm_num) (by norm_num)]
  norm_num [npSet, scale_color, scale_channel, pyInt, blackBuffer]

/-- C4 (amended): for every coordinate whose truncation toward zero lies
outside `[0,16) × [0,16)` — in particular every integer coordinate outside
that box — `set_pixel` leaves every slot of the buffer unchanged (and, being
total, raises no error). -/
theorem c4_amended (x y : ℚ) (c : Color) (buf : Buffer)
    (h : pyInt x < 0 ∨ 16 ≤ pyInt x ∨ pyInt y < 0 ∨ 16 ≤ pyInt y) :
    set_pixel x y c buf = buf := by
  rw [set_pixel]
  have hidx : xy_to_index (pyInt x) (pyInt y) = -1 := by
    unfold xy_to_index WIDTH HEIGHT
    rw [if_pos (by omega)]
  rw [hidx]
  norm_num

/-- C4 witness: a concrete out-of-range write is dropped. -/
theorem c4_amended_witness :
    set_pixel (-3/2) 3 (255, 0, 0) blackBuffer = blackBuffer :=
  c4_amended (-3/2) 3 (255, 0, 0) blackBuffer
    (Or.inl (by have h : pyInt (-3/2) = -1 := by
                  rw [pyInt, if_pos (by norm_num), Int.ceil_eq_iff]
                  norm_num
                omega))

namespace Pong

/-- The mutable fields of `PongGame` in `pong.py` (display-only fields and
the AI tuning constants are omitted; they never feed back into this state). -/
structure State where
  paddle_height : ℤ
  p1_y : ℤ
  p2_y : ℤ
  p1_x : ℤ
  p2_x : ℤ
  ball_x : ℚ
  ball_y : ℚ
  ball_vx : ℚ
  ball_vy : ℚ
  p1_score : ℤ
  p2_score : ℤ
  winning_score : ℤ
  game_over : Bool
  winner : Option ℕ
  rally_count : ℤ
deriving Repr, DecidableEq

/-- `PongGame.reset`; the random serve velocity is the oracle pair
`(vxDir, vy0)` standing for `random.choice([-1,1])` and
`random.uniform(-0.5, 0.5)`. -/
def reset (vxDir : ℤ) (vy0 : ℚ) : State :=
  { paddle_height := 4, p1_y := (16 - 4) / 2, p2_y := (16 - 4) / 2,
    p1_x := 0, p2_x := 16 - 1,
    ball_x := 8, ball_y := 8, ball_vx := (vxDir : ℚ) * (4/5), ball_vy := vy0,
    p1_score := 0, p2_score := 0, winning_score := 5,
    game_over := false, winner := none, rally_count := 0 }

/-- `PongGame.reset_ball`: recentre the ball after a score; `vy0` is the
oracle for `random.uniform(-0.4, 0.4)`. -/
def reset_ball (g : State) (direction : ℤ) (vy0 : ℚ) : State :=
  { g with ball_x := 8, ball_y := 8,
           ball_vx := (direction : ℚ) * (4/5), ball_vy := vy0,
           rally_count := 0 }

/-- `move_paddle` from `pong.py`: move paddle `1` (else paddle 2) by
`direction`, only when the new `y` stays in `[0, HEIGHT - paddle_height]`. -/
def move_paddle (paddle : ℕ) (direction : ℤ) (g : State) : State :=
  if paddle = 1 then
    if 0 ≤ g.p1_y + direction ∧ g.p1_y + direction ≤ 16 - g.paddle_height then
      { g with p1_y := g.p1_y + direction }
    else g
  else
    if 0 ≤ g.p2_y + direction ∧ g.p2_y + direction ≤ 16 - g.paddle_height then
      { g with p2_y := g.p2_y + direction }
    else g

/-- `check_buttons` from `pong.py` (the `BUTTONS_ENABLED` branch): each of
the four sampled values moves its paddle when it reads `0` (active-low);
the second component is the returned `pressed` flag. -/
def check_buttons (v1u v1d v2u v2d : ℕ) (g : State) : State × Bool :=
  let g1 := if v1u = 0 then move_paddle 1 (-1) g else g
  let g2 := if v1d = 0 then move_paddle 1 1 g1 else g1
  let g3 := if v2u = 0 then move_paddle 2 (-1) g2 else g2
  let g4 := if v2d = 0 then move_paddle 2 1 g3 else g3
  (g4, (v1u == 0) || (v1d == 0) || (v2u == 0) || (v2d == 0))

/-- First part of `update_ball`: integrate the position, then the
top/bottom wall reflection (`ball_y <= 0` / `ball_y >= HEIGHT - 1`). -/
def wall_phase (g : State) : State :=
  if g.ball_y + g.ball_vy ≤ 0 then
    { g with ball_x := g.ball_x + g.ball_vx, ball_y := 0, ball_vy := |g.ball_vy| }
  else if g.ball_y + g.ball_vy ≥ 16 - 1 then
    { g with ball_x := g.ball_x + g.ball_vx, ball_y := 16 - 1, ball_vy := -|g.ball_vy| }
  else
    { g with ball_x := g.ball_x + g.ball_vx, ball_y := g.ball_y + g.ball_vy }

/-- `update_ball`, left-paddle collision block. -/
def paddle1_phase (g : State) : State :=
  if g.ball_x ≤ (g.p1_x : ℚ) + 1 ∧ g.ball_vx < 0 ∧
     (g.p1_y : ℚ) ≤ g.ball_y ∧ g.ball_y ≤ (g.p1_y : ℚ) + (g.paddle_height : ℚ) - 1 then
    { g with ball_x := (g.p1_x : ℚ) + 1,
             ball_vx := min (|g.ball_vx| * (21/20)) 2,
             ball_vy := ((g.ball_y - (g.p1_y : ℚ)) / (g.paddle_height : ℚ) - 1/2) * (3/2),
             rally_count := g.rally_count + 1 }
  else g

/-- `update_ball`, right-paddle collision block. -/
def paddle2_phase (g : State) : State :=
  if g.ball_x ≥ (g.p2_x : ℚ) - 1 ∧ 0 < g.ball_vx ∧
     (g.p2_y : ℚ) ≤ g.ball_y ∧ g.ball_y ≤ (g.p2_y : ℚ) + (g.paddle_height : ℚ) - 1 then
    { g with ball_x := (g.p2_x : ℚ) - 1,
             ball_vx := max (-|g.ball_vx| * (21/20)) (-2),
             ball_vy := ((g.ball_y - (g.p2_y : ℚ)) / (g.paddle_height : ℚ) - 1/2) * (3/2),
             rally_count := g.rally_count + 1 }
  else g

/-- `update_ball`, scoring block: `ball_x <= 0` awards player 2,
`ball_x >= WIDTH - 1` awards player 1; below `winning_score` the ball is
re-served (`direction=1` after a P2 point, `direction=-1` after a P1 point),
otherwise the game ends. -/
def score_phase (g : State) (vy0 : ℚ) : State :=
  if g.ball_x ≤ 0 then
    if g.p2_score + 1 ≥ g.winning_score then
      { g with p2_score := g.p2_score + 1, game_over := true, winner := some 2 }
    else reset_ball { g with p2_score := g.p2_score + 1 } 1 vy0
  else if g.ball_x ≥ 16 - 1 then
    if g.p1_score + 1 ≥ g.winning_score then
      { g with p1_score := g.p1_score + 1, game_over := true, winner := some 1 }
    else reset_ball { g with p1_score := g.p1_score + 1 } (-1) vy0
  else g

/-- `update_ball` from `pong.py`: the four blocks in source order. -/
def update_ball (g : State) (vy0 : ℚ) : State :=
  score_phase (paddle2_phase (paddle1_phase (wall_phase g))) vy0

end Pong

namespace Pong

/-- The state reaching `update_ball`'s scoring block: position integration,
wall reflection and both paddle blocks. -/
def pre_score (g : State) : State := paddle2_phase (paddle1_phase (wall_phase g))

theorem update_ball_eq (g : State) (vy0 : ℚ) :
    update_ball g vy0 = score_phase (pre_score g) vy0 := rfl

theorem move_paddle_height (p : ℕ) (d : ℤ) (g : State) :
    (move_paddle p d g).paddle_height = g.paddle_height := by
  unfold move_paddle
  split_ifs <;> rfl

/-- `move_paddle` characterisation: the move lands iff the new `y` is in
range, otherwise the whole state is untouched. -/
theorem move_paddle_spec (d : ℤ) (g : State) :
    ((0 ≤ g.p1_y + d ∧ g.p1_y + d ≤ 16 - g.paddle_height) →
       (move_paddle 1 d g).p1_y = g.p1_y + d ∧ (move_paddle 1 d g).p2_y = g.p2_y) ∧
    (¬(0 ≤ g.p1_y + d ∧ g.p1_y + d ≤ 16 - g.paddle_height) →
       move_paddle 1 d g = g) ∧
    ((0 ≤ g.p2_y + d ∧ g.p2_y + d ≤ 16 - g.paddle_height) →
       (move_paddle 2 d g).p2_y = g.p2_y + d ∧ (move_paddle 2 d g).p1_y = g.p1_y) ∧
    (¬(0 ≤ g.p2_y + d ∧ g.p2_y + d ≤ 16 - g.paddle_height) →
       move_paddle 2 d g = g) := by
  unfold move_paddle
  refine ⟨fun h => ?_, fun h => ?_, fun h => ?_, fun h => ?_⟩
  · rw [if_pos rfl, if_pos h]; exact ⟨rfl, rfl⟩
  · rw [if_pos rfl, if_neg h]
  · rw [if_neg (by decide), if_pos h]; exact ⟨rfl, rfl⟩
  · rw [if_neg (by decide), if_neg h]

/-- Both paddles stay in range after one `move_paddle` of any size. -/
theorem move_paddle_range (p : ℕ) (d : ℤ) (g : State)
    (h1 : 0 ≤ g.p1_y) (h2 : g.p1_y ≤ 16 - g.paddle_height)
    (h3 : 0 ≤ g.p2_y) (h4 : g.p2_y ≤ 16 - g.paddle_height) :
    0 ≤ (move_paddle p d g).p1_y ∧
    (move_paddle p d g).p1_y ≤ 16 - (move_paddle p d g).paddle_height ∧
    0 ≤ (move_paddle p d g).p2_y ∧
    (move_paddle p d g).p2_y ≤ 16 - (move_paddle p d g).paddle_height := by
  unfold move_paddle
  split_ifs
  all_goals try dsimp only
  all_goals omega

/-- Folding a whole intent sequence through `move_paddle`. -/
def apply_moves (l : List (ℕ × ℤ)) (g : State) : State :=
  l.foldl (fun s pd => move_paddle pd.1 pd.2 s) g

/-- C7: a move intent is applied iff the resulting `y` is within
`[0, 16 - paddle_height]` (otherwise a no-op), and any sequence of intents
keeps both paddles in that range. -/
theorem c7_paddle_invariant :
    (∀ (d : ℤ) (g : State),
       ((0 ≤ g.p1_y + d ∧ g.p1_y + d ≤ 16 - g.paddle_height) →
          (move_paddle 1 d g).p1_y = g.p1_y + d) ∧
       (¬(0 ≤ g.p1_y + d ∧ g.p1_y + d ≤ 16 - g.paddle_height) →
          move_paddle 1 d g = g) ∧
       ((0 ≤ g.p2_y + d ∧ g.p2_y + d ≤ 16 - g.paddle_height) →
          (move_paddle 2 d g).p2_y = g.p2_y + d) ∧
       (¬(0 ≤ g.p2_y + d ∧ g.p2_y + d ≤ 16 - g.paddle_height) →
          move_paddle 2 d g = g)) ∧
    (∀ (l : List (ℕ × ℤ)) (g : State),
       0 ≤ g.p1_y → g.p1_y ≤ 16 - g.paddle_height →
       0 ≤ g.p2_y → g.p2_y ≤ 16 - g.paddle_height →
       0 ≤ (apply_moves l g).p1_y ∧
       (apply_moves l g).p1_y ≤ 16 - (apply_moves l g).paddle_height ∧
       0 ≤ (apply_moves l g).p2_y ∧
       (apply_moves l g).p2_y ≤ 16 - (apply_moves l g).paddle_height) := by
  constructor
  · intro d g
    obtain ⟨a, b, c, e⟩ := move_paddle_spec d g
    exact ⟨fun h => (a h).1, b, fun h => (c h).1, e⟩
  · intro l
    induction l with
    | nil => intro g h1 h2 h3 h4; exact ⟨h1, h2, h3, h4⟩
    | cons hd tl ih =>
        intro g h1 h2 h3 h4
        obtain ⟨k1, k2, k3, k4⟩ := move_paddle_range hd.1 hd.2 g h1 h2 h3 h4
        exact ih (move_paddle hd.1 hd.2 g) k1 k2 k3 k4

/-- C7 witness: a concrete intent sequence (including clamped moves at the
top edge) keeps both paddles in range. -/
theorem c7_paddle_invariant_witness :
    (0 ≤ (apply_moves [(1, -1), (1, -1), (2, 1)] (reset 1 0)).p1_y ∧
     (apply_moves [(1, -1), (1, -1), (2, 1)] (reset 1 0)).p1_y ≤
       16 - (apply_moves [(1, -1), (1, -1), (2, 1)] (reset 1 0)).paddle_height ∧
     0 ≤ (apply_moves [(1, -1), (1, -1), (2, 1)] (reset 1 0)).p2_y ∧
     (apply_moves [(1, -1), (1, -1), (2, 1)] (reset 1 0)).p2_y ≤
       16 - (apply_moves [(1, -1), (1, -1), (2, 1)] (reset 1 0)).paddle_height) ∧
    move_paddle 1 (-7) (reset 1 0) = reset 1 0 :=
  ⟨c7_paddle_invariant.2 [(1, -1), (1, -1), (2, 1)] (reset 1 0)
     (by norm_num [reset]) (by norm_num [reset]) (by norm_num [reset]) (by norm_num [reset]),
   (c7_paddle_invariant.1 (-7) (reset 1 0)).2.1 (by norm_num [reset])⟩

end Pong

namespace Pong

/-- The wall block always lands the ball's `y` in `[0, 15]`. -/
theorem wall_phase_ball_y_mem (g : State) :
    0 ≤ (wall_phase g).ball_y ∧ (wall_phase g).ball_y ≤ 15 := by
  unfold wall_phase
  split_ifs with h1 h2
  all_goals dsimp only
  · norm_num
  · norm_num
  · constructor <;> nlinarith [h1, h2]

/-- The paddle blocks never move the ball vertically. -/
theorem paddle_phases_ball_y (g : State) :
    (paddle2_phase (paddle1_phase g)).ball_y = g.ball_y := by
  unfold paddle1_phase paddle2_phase
  split_ifs <;> rfl

/-- The scoring block either keeps the ball's `y` or recentres it to `8`. -/
theorem score_phase_ball_y (g : State) (vy0 : ℚ) :
    (score_phase g vy0).ball_y = g.ball_y ∨ (score_phase g vy0).ball_y = 8 := by
  unfold score_phase reset_ball
  split_ifs <;> first | exact Or.inl rfl | exact Or.inr rfl

/-- C6: starting from `ball_y ∈ [0,15]`, one `update_ball` keeps
`ball_y ∈ [0,15]`; and when the integrated `y` leaves `[0,15]`, the wall
block clamps `y` to the crossed boundary and negates `vy` exactly once. -/
theorem c6_ball_y_invariant (g : State) (vy0 : ℚ)
    (hy0 : 0 ≤ g.ball_y) (hy15 : g.ball_y ≤ 15) :
    (0 ≤ (update_ball g vy0).ball_y ∧ (update_ball g vy0).ball_y ≤ 15) ∧
    (g.ball_y + g.ball_vy < 0 →
       g.ball_vy < 0 ∧ (wall_phase g).ball_y = 0 ∧
       (wall_phase g).ball_vy = -g.ball_vy) ∧
    (15 < g.ball_y + g.ball_vy →
       0 < g.ball_vy ∧ (wall_phase g).ball_y = 15 ∧
       (wall_phase g).ball_vy = -g.ball_vy) := by
  refine ⟨?_, ?_, ?_⟩
  · have hw := wall_phase_ball_y_mem g
    have hpp := paddle_phases_ball_y (wall_phase g)
    rcases score_phase_ball_y (paddle2_phase (paddle1_phase (wall_phase g))) vy0 with h | h
    · rw [update_ball_eq, pre_score, h, hpp]; exact hw
    · rw [update_ball_eq, pre_score, h]; norm_num
  · intro hcross
    have hvy : g.ball_vy < 0 := by linarith
    unfold wall_phase
    rw [if_pos (by linarith)]
    exact ⟨hvy, rfl, abs_of_neg hvy⟩
  · intro hcross
    have hvy : 0 < g.ball_vy := by linarith
    unfold wall_phase
    rw [if_neg (by linarith), if_pos (by norm_num; linarith)]
    refine ⟨hvy, by norm_num, ?_⟩
    dsimp only
    rw [abs_of_pos hvy]

/-- A concrete state crossing the bottom boundary (`y + vy = -1 < 0`). -/
def c6state : State :=
  { reset 1 0 with ball_y := 1, ball_vy := -2 }

/-- C6 witness: the crossing state is clamped to `y = 0` with `vy` negated,
and the updated `y` is back in `[0,15]`. -/
theorem c6_ball_y_invariant_witness :
    (0 ≤ (update_ball c6state 0).ball_y ∧ (update_ball c6state 0).ball_y ≤ 15) ∧
    (c6state.ball_vy < 0 ∧ (wall_phase c6state).ball_y = 0 ∧
       (wall_phase c6state).ball_vy = -c6state.ball_vy) :=
  ⟨(c6_ball_y_invariant c6state 0 (by norm_num [c6state, reset])
      (by norm_num [c6state, reset])).1,
   (c6_ball_y_invariant c6state 0 (by norm_num [c6state, reset])
      (by norm_num [c6state, reset])).2.1 (by norm_num [c6state, reset])⟩

end Pong

namespace Pong

/-- The wall and paddle blocks never touch scores, game flags or winner. -/
theorem pre_score_preserves (g : State) :
    (pre_score g).p1_score = g.p1_score ∧ (pre_score g).p2_score = g.p2_score ∧
    (pre_score g).winning_score = g.winning_score ∧
    (pre_score g).game_over = g.game_over ∧ (pre_score g).winner = g.winner := by
  unfold pre_score wall_phase paddle1_phase paddle2_phase
  split_ifs <;> exact ⟨rfl, rfl, rfl, rfl, rfl⟩

/-- C1 (amended): with `b` the ball position reaching the scoring block, a
score event happens iff `b.ball_x ≤ 0` or `b.ball_x ≥ 15`; crossing `x = 0`
increments exactly player 2's score and crossing `x = 15` exactly player 1's;
below `winning_score` the ball is recentred to `(8,8)` with `vx` directed
toward the side of the player who just scored (`+4/5` after a P2 point,
`-4/5` after a P1 point — i.e. away from the side scored against); at
`winning_score` the game ends with the scorer as `winner`. -/
theorem c1_scoring (g : State) (vy0 : ℚ) :
    ((pre_score g).ball_x ≤ 0 →
       (update_ball g vy0).p2_score = g.p2_score + 1 ∧
       (update_ball g vy0).p1_score = g.p1_score ∧
       (g.p2_score + 1 < g.winning_score →
          (update_ball g vy0).ball_x = 8 ∧ (update_ball g vy0).ball_y = 8 ∧
          (update_ball g vy0).ball_vx = 4/5 ∧
          (update_ball g vy0).game_over = g.game_over ∧
          (update_ball g vy0).winner = g.winner) ∧
       (g.winning_score ≤ g.p2_score + 1 →
          (update_ball g vy0).game_over = true ∧
          (update_ball g vy0).winner = some 2)) ∧
    (¬(pre_score g).ball_x ≤ 0 → (pre_score g).ball_x ≥ 15 →
       (update_ball g vy0).p1_score = g.p1_score + 1 ∧
       (update_ball g vy0).p2_score = g.p2_score ∧
       (g.p1_score + 1 < g.winning_score →
          (update_ball g vy0).ball_x = 8 ∧ (update_ball g vy0).ball_y = 8 ∧
          (update_ball g vy0).ball_vx = -(4/5) ∧
          (update_ball g vy0).game_over = g.game_over ∧
          (update_ball g vy0).winner = g.winner) ∧
       (g.winning_score ≤ g.p1_score + 1 →
          (update_ball g vy0).game_over = true ∧
          (update_ball g vy0).winner = some 1)) ∧
    (¬(pre_score g).ball_x ≤ 0 → ¬(pre_score g).ball_x ≥ 15 →
       (update_ball g vy0).p1_score = g.p1_score ∧
       (update_ball g vy0).p2_score = g.p2_score ∧
       (update_ball g vy0).game_over = g.game_over ∧
       (update_ball g vy0).winner = g.winner) := by
  obtain ⟨hp1, hp2, hws, hgo, hwin⟩ := pre_score_preserves g
  rw [update_ball_eq]
  unfold score_phase
  refine ⟨fun hx => ?_, fun hx hx15 => ?_, fun hx hx15 => ?_⟩
  · rw [if_pos hx]
    by_cases hs : (pre_score g).p2_score + 1 ≥ (pre_score g).winning_score
    · rw [if_pos hs]
      rw [hp2, hws] at hs
      refine ⟨by dsimp only; omega, by dsimp only; omega,
              fun hlt => absurd hs (by omega), fun _ => ⟨rfl, rfl⟩⟩
    · rw [if_neg hs]
      rw [hp2, hws] at hs
      unfold reset_ball
      refine ⟨by dsimp only; omega, by dsimp only; omega, fun hlt => ?_, fun hge => absurd hge (by omega)⟩
      refine ⟨rfl, rfl, by norm_num, by dsimp only; rw [hgo], by dsimp only; rw [hwin]⟩
  · rw [if_neg hx, if_pos (by norm_num; linarith)]
    by_cases hs : (pre_score g).p1_score + 1 ≥ (pre_score g).winning_score
    · rw [if_pos hs]
      rw [hp1, hws] at hs
      refine ⟨by dsimp only; omega, by dsimp only; omega,
              fun hlt => absurd hs (by omega), fun _ => ⟨rfl, rfl⟩⟩
    · rw [if_neg hs]
      rw [hp1, hws] at hs
      unfold reset_ball
      refine ⟨by dsimp only; omega, by dsimp only; omega, fun hlt => ?_, fun hge => absurd hge (by omega)⟩
      refine ⟨rfl, rfl, by norm_num, by dsimp only; rw [hgo], by dsimp only; rw [hwin]⟩
  · rw [if_neg hx, if_neg (by intro h; exact hx15 (by norm_num at h ⊢; linarith))]
    exact ⟨hp1, hp2, hgo, hwin⟩

/-- A concrete pre-serve state: both paddles parked at the top-edge span
`[12,15]`, ball at `(1/2, 8)` moving left, both scores `0`. -/
def c1state : State :=
  { paddle_height := 4, p1_y := 12, p2_y := 12, p1_x := 0, p2_x := 15,
    ball_x := 1/2, ball_y := 8, ball_vx := -(4/5), ball_vy := 0,
    p1_score := 0, p2_score := 0, winning_score := 5,
    game_over := false, winner := none, rally_count := 0 }

/-- C1 counterexample: from `c1state` the ball crosses `x = 0`, so the left
side (player 1's) is scored against and player 2 scores; the claim then
requires the re-served velocity to point toward the scored-against (left)
side, i.e. `ball_vx < 0` — but the code serves with `direction=1`, giving
`ball_vx = 4/5 > 0` (toward the scorer, player 2). -/
theorem c1_counterexample :
    (update_ball c1state 0).p2_score = c1state.p2_score + 1 ∧
    (update_ball c1state 0).ball_x = 8 ∧
    (update_ball c1state 0).ball_y = 8 ∧
    (update_ball c1state 0).ball_vx = 4/5 ∧
    ¬((update_ball c1state 0).ball_vx < 0) := by
  norm_num [update_ball, wall_phase, paddle1_phase, paddle2_phase, score_phase,
    reset_ball, c1state]

/-- C1 witness: the amended theorem applied to `c1state`. -/
theorem c1_scoring_witness :
    (update_ball c1state 0).p2_score = c1state.p2_score + 1 ∧
    (update_ball c1state 0).p1_score = c1state.p1_score ∧
    (update_ball c1state 0).ball_x = 8 ∧ (update_ball c1state 0).ball_y = 8 ∧
    (update_ball c1state 0).ball_vx = 4/5 ∧
    (update_ball c1state 0).game_over = c1state.game_over ∧
    (update_ball c1state 0).winner = c1state.winner := by
  have hx : (pre_score c1state).ball_x ≤ 0 := by
    norm_num [pre_score, wall_phase, paddle1_phase, paddle2_phase, c1state]
  obtain ⟨h1, h2, h3, _⟩ := (c1_scoring c1state 0).1 hx
  obtain ⟨h4, h5, h6, h7, h8⟩ := h3 (by norm_num [c1state])
  exact ⟨h1, h2, h4, h5, h6, h7, h8⟩

end Pong

namespace Invaders

/-- One alien record (`{'x', 'y', 'alive', 'type'}` in `space_invaders.py`). -/
structure Alien where
  x : ℤ
  y : ℤ
  alive : Bool
  type : ℕ
deriving Repr, DecidableEq

/-- The mutable fields of `Game` in `space_invaders.py` (autoplay bookkeeping
fields are omitted; they never feed back into the fields below). -/
structure State where
  player_x : ℤ
  player_y : ℤ
  player_alive : Bool
  player_bullets : List (ℤ × ℤ)
  alien_bullets : List (ℤ × ℤ)
  aliens : List Alien
  alien_direction : ℤ
  score : ℤ
  level : ℕ
  game_over : Bool
  victory : Bool
  last_alien_move : ℤ
  last_alien_shot : ℤ
  alien_speed : ℤ
deriving Repr, DecidableEq

/-- `rows = min(3 + self.level // 2, 5)` in `spawn_aliens`. -/
def rowsFor (level : ℕ) : ℕ := min (3 + level / 2) 5

/-- `cols = min(6 + self.level, 11)` in `spawn_aliens`. -/
def colsFor (level : ℕ) : ℕ := min (6 + level) 11

/-- `start_x = (WIDTH - cols * 2) // 2 + 1` (exact: the dividend is even). -/
def startXFor (level : ℕ) : ℤ := (16 - (colsFor level : ℤ) * 2) / 2 + 1

/-- The roster built by `spawn_aliens`: row-major, one alien per column
whose `x` passes the `x < WIDTH - 1` guard; `alive=True`, `type = row % 3`,
`y = 1 + row * 2`. -/
def spawnRoster (level : ℕ) : List Alien :=
  (List.range (rowsFor level)).flatMap (fun row =>
    (List.range (colsFor level)).filterMap (fun col =>
      if startXFor level + (col : ℤ) * 2 < 16 - 1 then
        some ⟨startXFor level + (col : ℤ) * 2, 1 + (row : ℤ) * 2, true, row % 3⟩
      else none))

/-- `Game.spawn_aliens`: rebuild the roster and rescale the movement timer. -/
def spawn_aliens (g : State) : State :=
  { g with aliens := spawnRoster g.level,
           alien_speed := max 150 (400 - (g.level : ℤ) * 30) }

/-- `move_player`: step left/right, clamped to `[1, WIDTH - 2]`. -/
def move_player (direction : ℤ) (g : State) : State :=
  if 1 ≤ g.player_x + direction ∧ g.player_x + direction ≤ 16 - 2 then
    { g with player_x := g.player_x + direction }
  else g

/-- `fire_player`: append a bullet unless three are already in flight. -/
def fire_player (g : State) : State :=
  if g.player_bullets.length < 3 then
    { g with player_bullets := g.player_bullets ++ [(g.player_x, g.player_y - 2)] }
  else g

/-- `move_bullets`: player bullets move up and drop off above row 0, alien
bullets move down and drop off below row 15. -/
def move_bullets (g : State) : State :=
  { g with
    player_bullets := g.player_bullets.filterMap
      (fun b => if 0 ≤ b.2 - 1 then some (b.1, b.2 - 1) else none),
    alien_bullets := g.alien_bullets.filterMap
      (fun b => if b.2 + 1 < 16 then some (b.1, b.2 + 1) else none) }

/-- The `hit_edge` scan in `move_aliens`: some living alien is at the margin
in the current direction of travel. -/
def hit_edge (g : State) : Bool :=
  g.aliens.any (fun a => a.alive &&
    ((decide (a.x ≤ 1) && decide (g.alien_direction = -1)) ||
     (decide (16 - 2 ≤ a.x) && decide (g.alien_direction = 1))))

/-- The drop loop of `move_aliens`: each living alien's `y` increments; the
loop `return`s as soon as one living alien reaches `y >= HEIGHT - 2` (second
component `true`), leaving the rest of the roster untouched. -/
def dropAliens : List Alien → List Alien × Bool
  | [] => ([], false)
  | a :: rest =>
    if a.alive then
      if 16 - 2 ≤ a.y + 1 then ({ a with y := a.y + 1 } :: rest, true)
      else
        let p := dropAliens rest
        ({ a with y := a.y + 1 } :: p.1, p.2)
    else
      let p := dropAliens rest
      (a :: p.1, p.2)

/-- `move_aliens`: gated by the movement interval; on an edge hit the
direction reverses and the formation drops (possibly ending the game),
otherwise every living alien steps sideways. -/
def move_aliens (now : ℤ) (g : State) : State :=
  if now - g.last_alien_move < g.alien_speed then g
  else
    let g1 : State := { g with last_alien_move := now }
    if hit_edge g1 then
      { g1 with alien_direction := -g1.alien_direction,
                aliens := (dropAliens g1.aliens).1,
                game_over := g1.game_over || (dropAliens g1.aliens).2 }
    else
      { g1 with aliens :=
          g1.aliens.map (fun a =>
            if a.alive then { a with x := a.x + g1.alien_direction } else a) }

/-- The `bottom_aliens` dict build in `alien_shoot`: keyed by column, keeps
the lowest (largest `y`) alien per column, insertion-ordered. -/
def insertBottom (acc : List Alien) (a : Alien) : List Alien :=
  if acc.any (fun b => b.x == a.x) then
    acc.map (fun b => if b.x == a.x && decide (b.y < a.y) then a else b)
  else acc ++ [a]

/-- `alien_shoot`: gated by the fire interval; `pick` is the oracle for
`random.choice` over the per-column bottom aliens; the bullet is appended
only under the cap of five. -/
def alien_shoot (now : ℤ) (pick : ℕ) (g : State) : State :=
  if now - g.last_alien_shot < max 500 (1500 - (g.level : ℤ) * 100) then g
  else
    let g1 : State := { g with last_alien_shot := now }
    let alive := g1.aliens.filter (fun a => a.alive)
    if alive.isEmpty then g1
    else
      let cands := alive.foldl insertBottom []
      match cands.get? (pick % cands.length) with
      | some sh =>
        if g1.alien_bullets.length < 5 then
          { g1 with alien_bullets := g1.alien_bullets ++ [(sh.x, sh.y + 1)] }
        else g1
      | none => g1

/-- The inner loop of the player-bullet pass in `check_collisions`: find the
first living alien within Chebyshev distance 1 of the bullet, mark it dead,
and report its `type`. -/
def killFirst (b : ℤ × ℤ) : List Alien → Option (List Alien × ℕ)
  | [] => none
  | a :: rest =>
    if a.alive && decide (|b.1 - a.x| ≤ 1) && decide (|b.2 - a.y| ≤ 1) then
      some ({ a with alive := false } :: rest, a.type)
    else
      match killFirst b rest with
      | some p => some (a :: p.1, p.2)
      | none => none

/-- `sum(1 for a in aliens if a['alive'])`. -/
def aliveCount (l : List Alien) : ℕ := (l.filter (fun a => a.alive)).length

/-- `int(max(80, 400 * alive_count / len(aliens)))` (the value is `≥ 80`, so
Python's truncation is the floor, i.e. integer division). -/
def newSpeed (ac n : ℕ) : ℤ := max 80 ((400 * (ac : ℤ)) / (n : ℤ))

/-- The player-bullet pass of `check_collisions`, iterating over the
snapshot `player_bullets[:]`: on a hit the alien dies, the bullet is removed
from the live list (first occurrence), the score grows by
`10 * (type + 1)`, and the speed is rescaled while any alien lives. -/
def processBullets : List (ℤ × ℤ) → State → State
  | [], g => g
  | b :: rest, g =>
    match killFirst b g.aliens with
    | some p =>
      processBullets rest
        { g with aliens := p.1,
                 player_bullets := g.player_bullets.erase b,
                 score := g.score + 10 * ((p.2 : ℤ) + 1),
                 alien_speed := if 0 < aliveCount p.1 then newSpeed (aliveCount p.1) p.1.length
                                else g.alien_speed }
    | none => processBullets rest g

/-- The alien-bullet pass of `check_collisions`: some alien bullet is within
Chebyshev distance 1 of the player. -/
def playerHit (g : State) : Bool :=
  g.alien_bullets.any
    (fun b => decide (|b.1 - g.player_x| ≤ 1) && decide (|b.2 - g.player_y| ≤ 1))

/-- `check_collisions`: player bullets against aliens, then alien bullets
against the player (early `return` on a hit), then the victory check. -/
def check_collisions (g : State) : State :=
  let g1 := processBullets g.player_bullets g
  if playerHit g1 then { g1 with player_alive := false, game_over := true }
  else if g1.aliens.all (fun a => !a.alive) then { g1 with victory := true }
  else g1

/-- `check_buttons` from `space_invaders.py` (the `BUTTONS_ENABLED` branch). -/
def check_buttons (vl vr vf : ℕ) (g : State) : State × Bool :=
  let g1 := if vl = 0 then move_player (-1) g else g
  let g2 := if vr = 0 then move_player 1 g1 else g1
  let g3 := if vf = 0 then fire_player g2 else g2
  (g3, (vl == 0) || (vr == 0) || (vf == 0))

/-- The victory branch of `run_game`: bump the level, clear the flags,
respawn the formation and empty both bullet lists. -/
def level_respawn (g : State) : State :=
  let g1 := spawn_aliens { g with level := g.level + 1, victory := false, game_over := false }
  { g1 with player_bullets := [], alien_bullets := [] }

/-- `ALIEN_SPRITE_1` (squid). -/
def ALIEN_SPRITE_1 : List (ℤ × ℤ) := [(-1, 0), (0, 0), (1, 0), (-1, -1), (1, -1)]

/-- `ALIEN_SPRITE_2` (crab). -/
def ALIEN_SPRITE_2 : List (ℤ × ℤ) := [(-1, 0), (0, 0), (1, 0), (0, -1)]

/-- `ALIEN_SPRITE_3` (small). -/
def ALIEN_SPRITE_3 : List (ℤ × ℤ) := [(0, 0), (-1, -1), (1, -1)]

/-- `ALIEN_COLORS`. -/
def ALIEN_COLORS : List Color :=
  [(255, 0, 255), (0, 255, 255), (0, 255, 0), (255, 255, 0), (255, 150, 0)]

/-- The sprite choice in `draw_aliens`. -/
def spriteFor (t : ℕ) : List (ℤ × ℤ) :=
  if t = 0 then ALIEN_SPRITE_1 else if t = 1 then ALIEN_SPRITE_2 else ALIEN_SPRITE_3

/-- `ALIEN_COLORS[alien['type'] % len(ALIEN_COLORS)]`. -/
def colorFor (t : ℕ) : Color := (ALIEN_COLORS.get? (t % ALIEN_COLORS.length)).getD (0, 0, 0)

/-- The pixels one alien contributes to the frame. -/
def alienPixels (a : Alien) : List ((ℤ × ℤ) × Color) :=
  (spriteFor a.type).map (fun d => ((a.x + d.1, a.y + d.2), colorFor a.type))

/-- `draw_aliens` as the list of issued pixel writes: dead aliens are
skipped by the `continue`. -/
def draw_aliens (g : State) : List ((ℤ × ℤ) × Color) :=
  g.aliens.flatMap (fun a => if a.alive then alienPixels a else [])

end Invaders

namespace Invaders

/-- Folding a sequence of `move_player` intents. -/
def apply_player_moves (l : List ℤ) (g : State) : State :=
  l.foldl (fun s d => move_player d s) g

/-- C10: a `move_player` step is applied iff the resulting `x` stays in
`[1, 14]` (otherwise the state is untouched), so any sequence of moves
keeps the player's `x` within `[1, 14]`. -/
theorem c10_player_clamp :
    (∀ (d : ℤ) (g : State),
       ((1 ≤ g.player_x + d ∧ g.player_x + d ≤ 16 - 2) →
          (move_player d g).player_x = g.player_x + d) ∧
       (¬(1 ≤ g.player_x + d ∧ g.player_x + d ≤ 16 - 2) →
          move_player d g = g)) ∧
    (∀ (l : List ℤ) (g : State), 1 ≤ g.player_x → g.player_x ≤ 16 - 2 →
       1 ≤ (apply_player_moves l g).player_x ∧
       (apply_player_moves l g).player_x ≤ 16 - 2) := by
  constructor
  · intro d g
    constructor
    · intro h; unfold move_player; rw [if_pos h]
    · intro h; unfold move_player; rw [if_neg h]
  · intro l
    induction l with
    | nil => intro g h1 h2; exact ⟨h1, h2⟩
    | cons d rest ih =>
        intro g h1 h2
        have hstep : 1 ≤ (move_player d g).player_x ∧ (move_player d g).player_x ≤ 16 - 2 := by
          unfold move_player
          split_ifs with h
          · dsimp only; omega
          · exact ⟨h1, h2⟩
        exact ih (move_player d g) hstep.1 hstep.2

/-- The initial player position (`WIDTH // 2 = 8`). -/
def player0 : State :=
  { player_x := 8, player_y := 15, player_alive := true,
    player_bullets := [], alien_bullets := [], aliens := [],
    alien_direction := 1, score := 0, level := 1, game_over := false,
    victory := false, last_alien_move := 0, last_alien_shot := 0,
    alien_speed := 370 }

/-- C10 witness: a concrete intent sequence bouncing off the left margin. -/
theorem c10_player_clamp_witness :
    (1 ≤ (apply_player_moves [-1, -1, -1, -1, -1, -1, -1, -1, -1, 1] player0).player_x ∧
     (apply_player_moves [-1, -1, -1, -1, -1, -1, -1, -1, -1, 1] player0).player_x ≤ 16 - 2) ∧
    move_player (-9) player0 = player0 :=
  ⟨c10_player_clamp.2 [-1, -1, -1, -1, -1, -1, -1, -1, -1, 1] player0
      (by norm_num [player0]) (by norm_num [player0]),
   ((c10_player_clamp.1 (-9) player0).2 (by norm_num [player0]))⟩

end Invaders

namespace Invaders

/-- Guarded `filterMap` length equals the matching `filter` length. -/
theorem length_filterMap_guard {α β : Type} (p : α → Prop) [DecidablePred p]
    (f : α → β) (l : List α) :
    (l.filterMap (fun a => if p a then some (f a) else none)).length =
      (l.filter (fun a => decide (p a))).length := by
  induction l with
  | nil => rfl
  | cons a t ih =>
    by_cases hp : p a <;>
      simp [List.filterMap_cons, List.filter_cons, hp, ih]

/-- Length of a `flatMap` over `List.range` with constant block length. -/
theorem length_flatMap_const {β : Type} (f : ℕ → List β) (c : ℕ)
    (h : ∀ i, (f i).length = c) (n : ℕ) :
    ((List.range n).flatMap f).length = n * c := by
  induction n with
  | zero => simp
  | succ m ih =>
    rw [List.range_succ, List.flatMap_append, List.length_append, ih]
    simp [h m, Nat.succ_mul]

/-- The number of formation columns that pass the `x < WIDTH - 1` guard. -/
def effCols (level : ℕ) : ℕ :=
  ((List.range (colsFor level)).filter
    (fun col => decide (startXFor level + (col : ℤ) * 2 < 16 - 1))).length

/-- Every spawned alien is alive. -/
theorem spawnRoster_all_alive (level : ℕ) :
    ∀ a ∈ spawnRoster level, a.alive = true := by
  intro a ha
  rw [spawnRoster, List.mem_flatMap] at ha
  obtain ⟨row, _, hrow⟩ := ha
  rw [List.mem_filterMap] at hrow
  obtain ⟨col, _, hcol⟩ := hrow
  by_cases hx : startXFor level + (col : ℤ) * 2 < 16 - 1
  · rw [if_pos hx] at hcol
    cases hcol
    rfl
  · rw [if_neg hx] at hcol
    cases hcol

/-- The size of every freshly spawned roster: `rows × effCols` (not
`rows × cols` — columns whose `x` fails the `x < WIDTH - 1` guard are
silently dropped). -/
theorem aliveCount_spawnRoster (level : ℕ) :
    aliveCount (spawnRoster level) = rowsFor level * effCols level := by
  have hall : (spawnRoster level).filter (fun a => a.alive) = spawnRoster level :=
    List.filter_eq_self.mpr (fun a ha => spawnRoster_all_alive level a ha)
  rw [aliveCount, hall, spawnRoster]
  exact length_flatMap_const _ _
    (fun row => length_filterMap_guard
      (fun col => startXFor level + (col : ℤ) * 2 < 16 - 1) _ _) _

/-- `processBullets` touches only `aliens`, `player_bullets`, `score` and
`alien_speed`. -/
theorem processBullets_preserves (bs : List (ℤ × ℤ)) (g : State) :
    (processBullets bs g).alien_bullets = g.alien_bullets ∧
    (processBullets bs g).player_x = g.player_x ∧
    (processBullets bs g).player_y = g.player_y ∧
    (processBullets bs g).game_over = g.game_over ∧
    (processBullets bs g).victory = g.victory ∧
    (processBullets bs g).player_alive = g.player_alive ∧
    (processBullets bs g).level = g.level := by
  induction bs generalizing g with
  | nil => exact ⟨rfl, rfl, rfl, rfl, rfl, rfl, rfl⟩
  | cons b rest ih =>
    unfold processBullets
    cases hk : killFirst b g.aliens with
    | none => exact ih g
    | some p => exact ih _

/-- The `all dead` scan used by the victory check, as an alive-count test. -/
theorem all_dead_iff_aliveCount (l : List Alien) :
    (l.all (fun a => !a.alive)) = true ↔ aliveCount l = 0 := by
  rw [List.all_eq_true, aliveCount, List.length_eq_zero, List.filter_eq_nil_iff]
  constructor
  · intro h a ha
    have := h a ha
    simp at this
    simp [this]
  · intro h a ha
    have := h a ha
    simp at this
    simp [this]

/-- `playerHit` reads only the alien bullets and the player position. -/
theorem playerHit_congr (g g' : State)
    (h1 : g'.alien_bullets = g.alien_bullets)
    (h2 : g'.player_x = g.player_x) (h3 : g'.player_y = g.player_y) :
    playerHit g' = playerHit g := by
  unfold playerHit
  rw [h1, h2, h3]

/-- C2 (amended): when the alien-bullet pass does not kill the player,
`check_collisions` sets `victory` iff the living-alien count (after the
player-bullet pass) is zero; and the `run_game` victory respawn clears both
bullet lists and yields `rows × effCols` living aliens — which equals the
configured `rows × cols` only while every column passes the
`x < WIDTH - 1` guard (levels `≤ 1`). -/
theorem c2_victory_and_respawn :
    (∀ g : State, playerHit (processBullets g.player_bullets g) = false →
       ((check_collisions g).victory = true ↔
         (g.victory = true ∨ aliveCount (processBullets g.player_bullets g).aliens = 0))) ∧
    (∀ level : ℕ, aliveCount (spawnRoster level) = rowsFor level * effCols level) ∧
    (∀ g : State,
       (level_respawn g).player_bullets = [] ∧
       (level_respawn g).alien_bullets = [] ∧
       aliveCount (level_respawn g).aliens =
         rowsFor (g.level + 1) * effCols (g.level + 1)) := by
  refine ⟨?_, aliveCount_spawnRoster, ?_⟩
  · intro g hph
    unfold check_collisions
    dsimp only
    rw [hph]
    simp only [Bool.false_eq_true, if_false]
    by_cases hall :
        ((processBullets g.player_bullets g).aliens.all (fun a => !a.alive)) = true
    · rw [if_pos hall]
      have hv := (processBullets_preserves g.player_bullets g).2.2.2.2.1
      have hc := (all_dead_iff_aliveCount (processBullets g.player_bullets g).aliens).mp hall
      simp [hc]
    · rw [if_neg hall]
      have hv := (processBullets_preserves g.player_bullets g).2.2.2.2.1
      have hc : ¬ aliveCount (processBullets g.player_bullets g).aliens = 0 :=
        fun h => hall ((all_dead_iff_aliveCount _).mpr h)
      rw [hv]
      simp [hc]
  · intro g
    exact ⟨rfl, rfl, aliveCount_spawnRoster _⟩

/-- A victory-state at level 1, about to respawn. -/
def c2state : State :=
  { player_x := 8, player_y := 15, player_alive := true,
    player_bullets := [(3, 4)], alien_bullets := [(9, 12)],
    aliens := [⟨4, 1, false, 0⟩], alien_direction := 1, score := 30,
    level := 1, game_over := false, victory := true,
    last_alien_move := 0, last_alien_shot := 0, alien_speed := 370 }

/-- A state whose only alien is already dead while an alien bullet sits on
the player. -/
def c2hitState : State :=
  { player0 with aliens := [⟨4, 1, false, 0⟩], alien_bullets := [(8, 15)] }

/-- C2 counterexample: (i) the respawn after clearing level 1 runs at level
2 (`rows = 4`, `cols = 8`), but the column at `x = 15` fails the
`x < WIDTH - 1` guard, so only `4 × 7 = 28` aliens spawn — not
`rows × cols = 32` as the claim requires; (ii) with zero living aliens but
an alien bullet on the player, `check_collisions` returns early with
`game_over` and never sets `victory`, refuting the unconditional
"victory iff zero living aliens". -/
theorem c2_counterexample :
    (aliveCount (level_respawn c2state).aliens = 28 ∧
     rowsFor ((level_respawn c2state).level) *
       colsFor ((level_respawn c2state).level) = 32) ∧
    (aliveCount (processBullets c2hitState.player_bullets c2hitState).aliens = 0 ∧
     (check_collisions c2hitState).victory = false ∧
     (check_collisions c2hitState).game_over = true) := by
  refine ⟨⟨?_, ?_⟩, ?_, ?_, ?_⟩ <;> decide

/-- C2 witness: the amended theorem applied to `c2state` (whose lone alien
is dead, so victory is preserved) and to its respawn. -/
theorem c2_victory_and_respawn_witness :
    ((check_collisions c2state).victory = true ↔
      (c2state.victory = true ∨
        aliveCount (processBullets c2state.player_bullets c2state).aliens = 0)) ∧
    ((level_respawn c2state).player_bullets = [] ∧
     (level_respawn c2state).alien_bullets = [] ∧
     aliveCount (level_respawn c2state).aliens =
       rowsFor (c2state.level + 1) * effCols (c2state.level + 1)) :=
  ⟨c2_victory_and_respawn.1 c2state (by decide),
   c2_victory_and_respawn.2.2 c2state⟩

end Invaders

namespace Invaders

/-- `any` of a conjunction is `any` over the filtered list. -/
theorem any_and_eq_filter_any {α : Type} (p q : α → Bool) (l : List α) :
    l.any (fun x => p x && q x) = (l.filter p).any q := by
  induction l with
  | nil => rfl
  | cons a t ih =>
    rw [List.any_cons, List.filter_cons, ih]
    cases hp : p a <;> simp [List.any_cons]

/-- Guarded `flatMap` is `flatMap` over the filtered list. -/
theorem flatMap_guard_eq_filter {α β : Type} (p : α → Bool) (f : α → List β)
    (l : List α) :
    (l.flatMap fun a => if p a then f a else []) = (l.filter p).flatMap f := by
  induction l with
  | nil => rfl
  | cons a t ih =>
    rw [List.flatMap_cons, List.filter_cons, ih]
    cases hp : p a <;> simp

/-- The drop loop leaves dead aliens' records untouched (even after the
early `return`). -/
theorem dropAliens_dead_get (l : List Alien) (i : ℕ) (a : Alien)
    (hg : l.get? i = some a) (hd : a.alive = false) :
    (dropAliens l).1.get? i = some a := by
  induction l generalizing i with
  | nil => simp at hg
  | cons b t ih =>
    cases i with
    | zero =>
      simp only [List.get?_cons_zero, Option.some.injEq] at hg
      subst hg
      unfold dropAliens
      rw [if_neg (by rw [hd]; exact Bool.false_ne_true)]
      rfl
    | succ j =>
      simp only [List.get?_cons_succ] at hg
      unfold dropAliens
      by_cases hb : b.alive = true
      · rw [if_pos hb]
        by_cases hy : (16 : ℤ) - 2 ≤ b.y + 1
        · rw [if_pos hy]
          simpa using hg
        · rw [if_neg hy]
          simpa using ih j hg
      · rw [if_neg hb]
        simpa using ih j hg

/-- `move_aliens` leaves dead aliens' records untouched. -/
theorem move_aliens_dead_get (now : ℤ) (g : State) (i : ℕ) (a : Alien)
    (hg : g.aliens.get? i = some a) (hd : a.alive = false) :
    (move_aliens now g).aliens.get? i = some a := by
  unfold move_aliens
  dsimp only
  split_ifs with hgate hedge
  · exact hg
  · exact dropAliens_dead_get g.aliens i a hg hd
  · rw [List.get?_map, hg]
    simp [hd]

/-- The kill scan leaves dead aliens' records untouched. -/
theorem killFirst_dead_get (b : ℤ × ℤ) (l : List Alien) (p : List Alien × ℕ)
    (h : killFirst b l = some p) (i : ℕ) (a : Alien)
    (hg : l.get? i = some a) (hd : a.alive = false) :
    p.1.get? i = some a := by
  induction l generalizing p i with
  | nil => simp [killFirst] at h
  | cons c rest ih =>
    unfold killFirst at h
    by_cases hc : (c.alive && decide (|b.1 - c.x| ≤ 1) && decide (|b.2 - c.y| ≤ 1)) = true
    · rw [if_pos hc] at h
      cases h
      cases i with
      | zero =>
        simp only [List.get?_cons_zero, Option.some.injEq] at hg
        subst hg
        simp only [Bool.and_eq_true] at hc
        rw [hd] at hc
        exact absurd hc.1.1 Bool.false_ne_true
      | succ j =>
        simp only [List.get?_cons_succ] at hg ⊢
        exact hg
    · rw [if_neg hc] at h
      cases hk : killFirst b rest with
      | none => rw [hk] at h; cases h
      | some q =>
        rw [hk] at h
        cases h
        cases i with
        | zero =>
          simpa using hg
        | succ j =>
          simp only [List.get?_cons_succ] at hg ⊢
          exact ih q hk j hg

/-- A roster of dead aliens yields no hit: `killFirst` returns `none`. -/
theorem killFirst_of_all_dead (b : ℤ × ℤ) (l : List Alien)
    (h : ∀ a ∈ l, a.alive = false) : killFirst b l = none := by
  induction l with
  | nil => rfl
  | cons c rest ih =>
    unfold killFirst
    rw [if_neg, ih (fun a ha => h a (List.mem_cons_of_mem c ha))]
    rw [h c (List.mem_cons_self c rest)]
    simp

/-- The whole player-bullet pass leaves dead aliens' records untouched. -/
theorem processBullets_dead_get (bs : List (ℤ × ℤ)) (g : State) (i : ℕ)
    (a : Alien) (hg : g.aliens.get? i = some a) (hd : a.alive = false) :
    (processBullets bs g).aliens.get? i = some a := by
  induction bs generalizing g with
  | nil => exact hg
  | cons b rest ih =>
    unfold processBullets
    cases hk : killFirst b g.aliens with
    | none => exact ih g hg
    | some p => exact ih _ (killFirst_dead_get b g.aliens p hk i a hg hd)

/-- `check_collisions` leaves dead aliens' records untouched. -/
theorem check_collisions_dead_get (g : State) (i : ℕ) (a : Alien)
    (hg : g.aliens.get? i = some a) (hd : a.alive = false) :
    (check_collisions g).aliens.get? i = some a := by
  unfold check_collisions
  dsimp only
  split_ifs <;> exact processBullets_dead_get g.player_bullets g i a hg hd

end Invaders

namespace Invaders

/-- C8: a dead alien (`alive=false`) contributes no sprite pixels, is
skipped by the edge scan, is left untouched (position and flag) by
formation movement and by the whole collision pass, can never be hit by a
player bullet, and counts as dead for the victory scan. -/
theorem c8_dead_alien_excluded :
    (∀ g : State, draw_aliens g =
       (g.aliens.filter (fun a => a.alive)).flatMap alienPixels) ∧
    (∀ g : State, hit_edge g =
       (g.aliens.filter (fun a => a.alive)).any (fun a =>
         (decide (a.x ≤ 1) && decide (g.alien_direction = -1)) ||
         (decide ((16 : ℤ) - 2 ≤ a.x) && decide (g.alien_direction = 1)))) ∧
    (∀ (now : ℤ) (g : State) (i : ℕ) (a : Alien),
       g.aliens.get? i = some a → a.alive = false →
       (move_aliens now g).aliens.get? i = some a) ∧
    (∀ (g : State) (i : ℕ) (a : Alien),
       g.aliens.get? i = some a → a.alive = false →
       (check_collisions g).aliens.get? i = some a) ∧
    (∀ (b : ℤ × ℤ) (l : List Alien), (∀ a ∈ l, a.alive = false) →
       killFirst b l = none) ∧
    (∀ l : List Alien, ((l.all (fun a => !a.alive)) = true ↔ aliveCount l = 0)) := by
  refine ⟨?_, ?_, move_aliens_dead_get, check_collisions_dead_get,
          killFirst_of_all_dead, all_dead_iff_aliveCount⟩
  · intro g
    exact flatMap_guard_eq_filter (fun a => a.alive) alienPixels g.aliens
  · intro g
    exact any_and_eq_filter_any (fun a => a.alive) _ g.aliens

/-- A two-alien state whose first alien is dead, with a player bullet
sitting right on the dead alien. -/
def c8state : State :=
  { player0 with aliens := [⟨3, 3, false, 0⟩, ⟨9, 3, true, 1⟩],
                 player_bullets := [(3, 3)] }

/-- C8 witness: the dead alien survives a movement step and a collision
pass untouched (the bullet parked on it does not hit it), and an all-dead
roster yields no kill. -/
theorem c8_dead_alien_excluded_witness :
    (move_aliens 1000 c8state).aliens.get? 0 = some ⟨3, 3, false, 0⟩ ∧
    (check_collisions c8state).aliens.get? 0 = some ⟨3, 3, false, 0⟩ ∧
    killFirst (3, 3) [⟨3, 3, false, 0⟩] = none :=
  ⟨c8_dead_alien_excluded.2.2.1 1000 c8state 0 ⟨3, 3, false, 0⟩ rfl rfl,
   c8_dead_alien_excluded.2.2.2.1 c8state 0 ⟨3, 3, false, 0⟩ rfl rfl,
   c8_dead_alien_excluded.2.2.2.2.1 (3, 3) [⟨3, 3, false, 0⟩] (by decide)⟩

/-- The drop loop reports `game_over` iff some living alien is about to
reach row `HEIGHT - 2`. -/
theorem dropAliens_snd (l : List Alien) :
    (dropAliens l).2 = l.any (fun a => a.alive && decide ((16 : ℤ) - 2 ≤ a.y + 1)) := by
  induction l with
  | nil => rfl
  | cons a t ih =>
    unfold dropAliens
    by_cases ha : a.alive = true
    · by_cases hy : (16 : ℤ) - 2 ≤ a.y + 1
      · have hy' : (14 : ℤ) ≤ a.y + 1 := by omega
        rw [if_pos ha, if_pos hy, List.any_cons, ha]
        simp [hy']
      · have hy' : ¬(14 : ℤ) ≤ a.y + 1 := by omega
        rw [if_pos ha, if_neg hy, List.any_cons, ha]
        simp [hy', ih]
    · have ha' : a.alive = false := by revert ha; cases a.alive <;> simp
      rw [if_neg ha, List.any_cons, ha']
      simp [ih]

/-- C9: `game_over` is raised by exactly two paths — a living alien about to
reach row `HEIGHT - 2` during an (interval-gated) edge-triggered drop, or an
alien bullet within Chebyshev distance 1 of the player in the collision
pass; every other engine operation leaves `game_over` unchanged (and the
level respawn only clears it). -/
theorem c9_game_over_paths :
    (∀ (now : ℤ) (g : State),
       (move_aliens now g).game_over =
         (g.game_over ||
           (!decide (now - g.last_alien_move < g.alien_speed) &&
            (hit_edge g &&
             g.aliens.any (fun a => a.alive && decide ((16 : ℤ) - 2 ≤ a.y + 1)))))) ∧
    (∀ g : State, (check_collisions g).game_over = (g.game_over || playerHit g)) ∧
    (∀ g : State, (move_bullets g).game_over = g.game_over) ∧
    (∀ (d : ℤ) (g : State), (move_player d g).game_over = g.game_over) ∧
    (∀ g : State, (fire_player g).game_over = g.game_over) ∧
    (∀ (now : ℤ) (pick : ℕ) (g : State),
       (alien_shoot now pick g).game_over = g.game_over) ∧
    (∀ g : State, (spawn_aliens g).game_over = g.game_over) ∧
    (∀ g : State, (level_respawn g).game_over = false) := by
  refine ⟨?_, ?_, fun g => rfl, ?_, ?_, ?_, fun g => rfl, fun g => rfl⟩
  · intro now g
    unfold move_aliens
    dsimp only
    split_ifs with hgate hedge
    · simp [hgate]
    · have hedge' : hit_edge g = true := hedge
      have hg : decide (now - g.last_alien_move < g.alien_speed) = false := by
        simp [hgate]
      rw [dropAliens_snd] at *
      rw [hedge', hg]
      simp
    · have hedge' : hit_edge g = false := by
        have : ¬ hit_edge g = true := hedge
        revert this; cases hit_edge g <;> simp
      have hg : decide (now - g.last_alien_move < g.alien_speed) = false := by
        simp [hgate]
      rw [hedge', hg]
      simp
  · intro g
    unfold check_collisions
    dsimp only
    obtain ⟨hab, hpx, hpy, hgo, _⟩ := processBullets_preserves g.player_bullets g
    have hph : playerHit (processBullets g.player_bullets g) = playerHit g :=
      playerHit_congr _ _ hab hpx hpy
    split_ifs with h1 h2
    · rw [hph] at h1
      simp [h1]
    · rw [hph] at h1
      have h1' : playerHit g = false := by revert h1; cases playerHit g <;> simp
      simp [h1', hgo]
    · rw [hph] at h1
      have h1' : playerHit g = false := by revert h1; cases playerHit g <;> simp
      simp [h1', hgo]
  · intro d g
    unfold move_player
    split_ifs <;> rfl
  · intro g
    unfold fire_player
    split_ifs <;> rfl
  · intro now pick g
    unfold alien_shoot
    dsimp only
    split_ifs with h1 h2 h3
    · rfl
    · rfl
    · split <;> rfl
    · split <;> rfl

end Invaders

namespace Pong

theorem move_paddle_two_p1_y (d : ℤ) (g : State) :
    (move_paddle 2 d g).p1_y = g.p1_y := by
  unfold move_paddle
  rw [if_neg (by decide)]
  split_ifs <;> rfl

theorem move_paddle_one_p2_y (d : ℤ) (g : State) :
    (move_paddle 1 d g).p2_y = g.p2_y := by
  unfold move_paddle
  rw [if_pos rfl]
  split_ifs <;> rfl

theorem move_paddle_keeps_height (p : ℕ) (d : ℤ) (g : State) :
    (move_paddle p d g).p1_y = g.p1_y ∨ p = 1 := by
  by_cases hp : p = 1
  · exact Or.inr hp
  · unfold move_paddle
    rw [if_neg hp]
    left
    split_ifs <;> rfl

end Pong

namespace Invaders

theorem move_player_bullets (d : ℤ) (g : State) :
    (move_player d g).player_bullets = g.player_bullets := by
  unfold move_player
  split_ifs <;> rfl

theorem move_player_py (d : ℤ) (g : State) :
    (move_player d g).player_y = g.player_y := by
  unfold move_player
  split_ifs <;> rfl

theorem fire_player_px (g : State) :
    (fire_player g).player_x = g.player_x := by
  unfold fire_player
  split_ifs <;> rfl

end Invaders

/-- The pong demo is started at `p1_y = 6`. -/
def c3g0 : Pong.State := Pong.reset 1 0

/-- The state after one tick holding only the P1-down button. -/
def c3g1 : Pong.State := (Pong.check_buttons 1 0 1 1 c3g0).1

/-- C3 counterexample: neither `check_buttons` has any debounce state — a
button held (sampled `0`) on two consecutive ticks emits a move intent on
*both* ticks (`p1_y` advances from 6 to 7 to 8), contradicting the claim
that at least a fixed debounce interval must separate accepted presses. -/
theorem c3_counterexample :
    (Pong.check_buttons 1 0 1 1 c3g0).2 = true ∧
    c3g1.p1_y = c3g0.p1_y + 1 ∧
    (Pong.check_buttons 1 0 1 1 c3g1).2 = true ∧
    ((Pong.check_buttons 1 0 1 1 c3g1).1).p1_y = c3g0.p1_y + 2 := by
  refine ⟨rfl, ?_, rfl, ?_⟩ <;> decide


namespace Pong

/-- `move_paddle` on paddle 2 only reads `p2_y` and `paddle_height`. -/
theorem move_paddle_two_p2_y_congr (d : ℤ) (g h : State)
    (h1 : h.p2_y = g.p2_y) (h2 : h.paddle_height = g.paddle_height) :
    (move_paddle 2 d h).p2_y = (move_paddle 2 d g).p2_y := by
  unfold move_paddle
  rw [if_neg (show (2 : ℕ) ≠ 1 from by decide)]
  rw [if_neg (show (2 : ℕ) ≠ 1 from by decide)]
  by_cases hc : 0 ≤ g.p2_y + d ∧ g.p2_y + d ≤ 16 - g.paddle_height
  · rw [if_pos (show 0 ≤ h.p2_y + d ∧ h.p2_y + d ≤ 16 - h.paddle_height from by
        rw [h1, h2]; exact hc), if_pos hc]
    dsimp only
    rw [h1]
  · rw [if_neg (show ¬(0 ≤ h.p2_y + d ∧ h.p2_y + d ≤ 16 - h.paddle_height) from by
        rw [h1, h2]; exact hc), if_neg hc]
    exact h1

/-- The paddle-1 button block never touches `p2_y` or `paddle_height`. -/
theorem p1_block_keeps (v1u v1d : ℕ) (g : State) :
    (if v1d = 0 then move_paddle 1 1 (if v1u = 0 then move_paddle 1 (-1) g else g)
     else if v1u = 0 then move_paddle 1 (-1) g else g).p2_y = g.p2_y ∧
    (if v1d = 0 then move_paddle 1 1 (if v1u = 0 then move_paddle 1 (-1) g else g)
     else if v1u = 0 then move_paddle 1 (-1) g else g).paddle_height =
      g.paddle_height := by
  by_cases h1u : v1u = 0 <;> by_cases h1d : v1d = 0 <;>
    simp [h1u, h1d, move_paddle_one_p2_y, move_paddle_height]

/-- `check_buttons` acts on `p1_y` exactly through the two paddle-1 buttons. -/
theorem check_buttons_p1_y (v1u v1d v2u v2d : ℕ) (g : State) :
    ((check_buttons v1u v1d v2u v2d g).1).p1_y =
      (if v1d = 0 then move_paddle 1 1 (if v1u = 0 then move_paddle 1 (-1) g else g)
       else if v1u = 0 then move_paddle 1 (-1) g else g).p1_y := by
  unfold check_buttons
  dsimp only
  by_cases h2u : v2u = 0 <;> by_cases h2d : v2d = 0 <;>
    simp [h2u, h2d, move_paddle_two_p1_y]

/-- `check_buttons` acts on `p2_y` exactly through the two paddle-2 buttons. -/
theorem check_buttons_p2_y (v1u v1d v2u v2d : ℕ) (g : State) :
    ((check_buttons v1u v1d v2u v2d g).1).p2_y =
      (if v2d = 0 then move_paddle 2 1 (if v2u = 0 then move_paddle 2 (-1) g else g)
       else if v2u = 0 then move_paddle 2 (-1) g else g).p2_y := by
  unfold check_buttons
  dsimp only
  obtain ⟨hp2, hph⟩ := p1_block_keeps v1u v1d g
  by_cases h2u : v2u = 0 <;> by_cases h2d : v2d = 0
  · rw [if_pos h2d, if_pos h2u, if_pos h2d, if_pos h2u]
    exact move_paddle_two_p2_y_congr 1 _ _
      (move_paddle_two_p2_y_congr (-1) g _ hp2 hph)
      (by rw [move_paddle_height, move_paddle_height, hph])
  · rw [if_neg h2d, if_pos h2u, if_neg h2d, if_pos h2u]
    exact move_paddle_two_p2_y_congr (-1) g _ hp2 hph
  · rw [if_pos h2d, if_neg h2u, if_pos h2d, if_neg h2u]
    exact move_paddle_two_p2_y_congr 1 g _ hp2 hph
  · rw [if_neg h2d, if_neg h2u, if_neg h2d, if_neg h2u]
    exact hp2

end Pong

namespace Invaders

/-- `check_buttons` acts on `player_x` exactly through the two move buttons
(`fire_player` never moves the ship). -/
theorem check_buttons_player_x (vl vr vf : ℕ) (g : State) :
    ((check_buttons vl vr vf g).1).player_x =
      (if vr = 0 then move_player 1 (if vl = 0 then move_player (-1) g else g)
       else if vl = 0 then move_player (-1) g else g).player_x := by
  unfold check_buttons
  dsimp only
  by_cases hf : vf = 0 <;> simp [hf, fire_player_px]

/-- The move-button block never touches the bullet list or `player_y`. -/
theorem moves_block_keeps (vl vr : ℕ) (g : State) :
    (if vr = 0 then move_player 1 (if vl = 0 then move_player (-1) g else g)
     else if vl = 0 then move_player (-1) g else g).player_bullets =
      g.player_bullets ∧
    (if vr = 0 then move_player 1 (if vl = 0 then move_player (-1) g else g)
     else if vl = 0 then move_player (-1) g else g).player_y = g.player_y := by
  by_cases hl : vl = 0 <;> by_cases hr : vr = 0 <;>
    simp [hl, hr, move_player_bullets, move_player_py]

end Invaders

/-- C3 (amended): in manual mode an intent is emitted for a button iff that
button samples `0` (active-low) on that tick — with no debounce gating, so a
held button produces an intent on every consecutive tick. Per button: an
unpressed button contributes nothing, and a pressed button contributes
exactly its `move_paddle` / `move_player` / `fire_player` action (in source
order when its sibling is also pressed), each subject only to its own range
clamp or the three-bullet cap. -/
theorem c3_button_intents :
    (∀ (v1u v1d v2u v2d : ℕ) (g : Pong.State),
       ((Pong.check_buttons v1u v1d v2u v2d g).2 = true ↔
          (v1u = 0 ∨ v1d = 0 ∨ v2u = 0 ∨ v2d = 0)) ∧
       (v1u ≠ 0 → v1d ≠ 0 →
          ((Pong.check_buttons v1u v1d v2u v2d g).1).p1_y = g.p1_y) ∧
       (v1u = 0 → v1d ≠ 0 →
          ((Pong.check_buttons v1u v1d v2u v2d g).1).p1_y =
            (Pong.move_paddle 1 (-1) g).p1_y) ∧
       (v1u ≠ 0 → v1d = 0 →
          ((Pong.check_buttons v1u v1d v2u v2d g).1).p1_y =
            (Pong.move_paddle 1 1 g).p1_y) ∧
       (v1u = 0 → v1d = 0 →
          ((Pong.check_buttons v1u v1d v2u v2d g).1).p1_y =
            (Pong.move_paddle 1 1 (Pong.move_paddle 1 (-1) g)).p1_y) ∧
       (v2u ≠ 0 → v2d ≠ 0 →
          ((Pong.check_buttons v1u v1d v2u v2d g).1).p2_y = g.p2_y) ∧
       (v2u = 0 → v2d ≠ 0 →
          ((Pong.check_buttons v1u v1d v2u v2d g).1).p2_y =
            (Pong.move_paddle 2 (-1) g).p2_y) ∧
       (v2u ≠ 0 → v2d = 0 →
          ((Pong.check_buttons v1u v1d v2u v2d g).1).p2_y =
            (Pong.move_paddle 2 1 g).p2_y) ∧
       (v2u = 0 → v2d = 0 →
          ((Pong.check_buttons v1u v1d v2u v2d g).1).p2_y =
            (Pong.move_paddle 2 1 (Pong.move_paddle 2 (-1) g)).p2_y)) ∧
    (∀ (vl vr vf : ℕ) (g : Invaders.State),
       ((Invaders.check_buttons vl vr vf g).2 = true ↔
          (vl = 0 ∨ vr = 0 ∨ vf = 0)) ∧
       (vl ≠ 0 → vr ≠ 0 →
          ((Invaders.check_buttons vl vr vf g).1).player_x = g.player_x) ∧
       (vl = 0 → vr ≠ 0 →
          ((Invaders.check_buttons vl vr vf g).1).player_x =
            (Invaders.move_player (-1) g).player_x) ∧
       (vl ≠ 0 → vr = 0 →
          ((Invaders.check_buttons vl vr vf g).1).player_x =
            (Invaders.move_player 1 g).player_x) ∧
       (vl = 0 → vr = 0 →
          ((Invaders.check_buttons vl vr vf g).1).player_x =
            (Invaders.move_player 1 (Invaders.move_player (-1) g)).player_x) ∧
       (vf ≠ 0 →
          ((Invaders.check_buttons vl vr vf g).1).player_bullets =
            g.player_bullets) ∧
       (vf = 0 → g.player_bullets.length < 3 →
          ((Invaders.check_buttons vl vr vf g).1).player_bullets =
            g.player_bullets ++
              [(((Invaders.check_buttons vl vr vf g).1).player_x,
                g.player_y - 2)]) ∧
       (vf = 0 → ¬g.player_bullets.length < 3 →
          ((Invaders.check_buttons vl vr vf g).1).player_bullets =
            g.player_bullets)) := by
  constructor
  · intro v1u v1d v2u v2d g
    refine ⟨?_, ?_, ?_, ?_, ?_, ?_, ?_, ?_, ?_⟩
    · simp only [Pong.check_buttons]
      simp
      tauto
    · intro h1u h1d
      rw [Pong.check_buttons_p1_y, if_neg h1d, if_neg h1u]
    · intro h1u h1d
      rw [Pong.check_buttons_p1_y, if_neg h1d, if_pos h1u]
    · intro h1u h1d
      rw [Pong.check_buttons_p1_y, if_pos h1d, if_neg h1u]
    · intro h1u h1d
      rw [Pong.check_buttons_p1_y, if_pos h1d, if_pos h1u]
    · intro h2u h2d
      rw [Pong.check_buttons_p2_y, if_neg h2d, if_neg h2u]
    · intro h2u h2d
      rw [Pong.check_buttons_p2_y, if_neg h2d, if_pos h2u]
    · intro h2u h2d
      rw [Pong.check_buttons_p2_y, if_pos h2d, if_neg h2u]
    · intro h2u h2d
      rw [Pong.check_buttons_p2_y, if_pos h2d, if_pos h2u]
  · intro vl vr vf g
    refine ⟨?_, ?_, ?_, ?_, ?_, ?_, ?_, ?_⟩
    · simp only [Invaders.check_buttons]
      simp
      tauto
    · intro hl hr
      rw [Invaders.check_buttons_player_x, if_neg hr, if_neg hl]
    · intro hl hr
      rw [Invaders.check_buttons_player_x, if_neg hr, if_pos hl]
    · intro hl hr
      rw [Invaders.check_buttons_player_x, if_pos hr, if_neg hl]
    · intro hl hr
      rw [Invaders.check_buttons_player_x, if_pos hr, if_pos hl]
    · intro hvf
      unfold Invaders.check_buttons
      dsimp only
      rw [if_neg hvf]
      exact (Invaders.moves_block_keeps vl vr g).1
    · intro hvf hlen
      unfold Invaders.check_buttons
      dsimp only
      rw [if_pos hvf]
      obtain ⟨hb, hy⟩ := Invaders.moves_block_keeps vl vr g
      rw [Invaders.fire_player_px]
      unfold Invaders.fire_player
      rw [if_pos (by rw [hb]; exact hlen)]
      dsimp only
      rw [hb, hy]
    · intro hvf hcap
      unfold Invaders.check_buttons
      dsimp only
      rw [if_pos hvf]
      obtain ⟨hb, _⟩ := Invaders.moves_block_keeps vl vr g
      unfold Invaders.fire_player
      rw [if_neg (by rw [hb]; exact hcap)]
      exact hb

/-- C3 witness: only the P1-down button pressed moves that paddle one step
down on that very tick, and only the fire button pressed appends a bullet. -/
theorem c3_button_intents_witness :
    (Pong.check_buttons 1 0 1 1 (Pong.reset 1 0)).2 = true ∧
    ((Pong.check_buttons 1 0 1 1 (Pong.reset 1 0)).1).p1_y =
      (Pong.reset 1 0).p1_y + 1 ∧
    ((Invaders.check_buttons 1 1 0 Invaders.player0).1).player_bullets =
      Invaders.player0.player_bullets ++
        [(((Invaders.check_buttons 1 1 0 Invaders.player0).1).player_x,
          Invaders.player0.player_y - 2)] := by
  refine ⟨((c3_button_intents.1 1 0 1 1 (Pong.reset 1 0)).1).mpr
            (Or.inr (Or.inl rfl)), ?_,
          (c3_button_intents.2 1 1 0 Invaders.player0).2.2.2.2.2.2.1 rfl
            (by decide)⟩
  rw [(c3_button_intents.1 1 0 1 1 (Pong.reset 1 0)).2.2.2.1 (by decide) rfl]
  decide
